import Mathlib

/-!
Verification of the PacketMind anomaly-detection core (`src/backend/anomaly.py`)
and the WebSocket broadcast hub (`src/backend/main.py`).

Modelling conventions:
* Python `float` values (timestamps, threshold, mean, variance) are modelled as
  exact rationals `ℚ`; Python `int` as `ℤ`/`ℕ`.  Claims under study concern the
  control flow and the exact comparison logic, not float rounding.
* `statistics.stdev xs` is `Real.sqrt (sampleVariance xs)`.  Since the square
  root is irrational, every comparison the code makes against the stdev
  (`|z| ≥ t` with `t ≥ 0`, `stdev == 0`) is embedded by the equivalent
  comparison on the sample variance (`t² · var ≤ (c − mean)²`, `var = 0`);
  the lemma `absZscoreGe_iff_real` proves the equivalence with the real
  z-score, so theorems can be stated against the genuine `(c − mean)/√var`.
* `collections.deque(maxlen := n)` is a list that keeps its most recent `n`
  elements; `dequeAppend`/`dequeKeepLast` embed append-with-eviction and the
  resize performed by `update_config`.
* Wall-clock reads (`time.time()`) become an explicit `now : ℚ` argument; the
  packet timestamp truncated to a second (`int(timestamp)`) becomes an
  explicit `packet_second : ℤ` argument of `add_packet`.
* In the source, `_check_anomaly_for_count` mutates `last_alert_time` when it
  fires; here the check is a pure function returning `Option AnomalyAlert`
  and each call site in `add_packet` performs the corresponding
  `last_alert_time := now` update, exactly when the check returns an alert.
-/

namespace PacketMind

/-- Alert severity, `anomaly.py` lines 179-185: `critical` for `|z| ≥ 5`,
`warning` for `|z| ≥ 4`, otherwise `info`. -/
inductive AlertLevel
  | info
  | warning
  | critical
deriving DecidableEq, Repr

/-- The alert message of `anomaly.py` lines 190-194: a spike text when
`z_score > 0`, a drop text otherwise, each carrying the reported count.
The surrounding literal text and the 2-decimal formatting of the z-score are
not modelled; the claims only distinguish the spike/drop wording. -/
inductive AlertMessage
  | trafficSpike (count : ℤ)
  | trafficDrop (count : ℤ)
deriving DecidableEq, Repr

/-- `models.AnomalyAlert` as populated by `_generate_alert` (lines 197-210).
The `meta` dictionary additionally carries the rounded z-score and stdev,
which are irrational; no claim refers to them, so they are left out. -/
structure AnomalyAlert where
  level : AlertLevel
  message : AlertMessage
  timestamp : ℚ
deriving DecidableEq, Repr

/-- `AnomalyConfig` (`anomaly.py` lines 20-26): a plain dataclass.  Note the
source performs no validation of the field values at construction. -/
structure AnomalyConfig where
  window_size : ℕ := 60
  threshold : ℚ := 3
  min_samples : ℕ := 10
  alert_cooldown : ℚ := 30
deriving DecidableEq, Repr

/-- `TrafficStats` (`anomaly.py` lines 29-34): one finalized second. -/
structure TrafficStats where
  timestamp : ℤ
  packet_count : ℤ
deriving DecidableEq, Repr

/-- The mutable state of an `AnomalyDetector` instance
(`anomaly.py` lines 51-60). -/
structure DetectorState where
  config : AnomalyConfig
  traffic_window : List TrafficStats
  current_second : ℤ
  current_count : ℤ
  last_alert_time : ℚ
deriving DecidableEq, Repr

/-- `statistics.mean` over rationals (exact model of the float mean). -/
def listMean (xs : List ℚ) : ℚ := xs.sum / xs.length

/-- The square of `statistics.stdev`: the sample variance
`Σ (x − mean)² / (n − 1)`.  `statistics.stdev xs = Real.sqrt (sampleVariance xs)`. -/
def sampleVariance (xs : List ℚ) : ℚ :=
  ((xs.map (fun x => (x - listMean xs) ^ 2)).sum) / ((xs.length : ℚ) - 1)

/-- `statistics.median`: sort ascending, take the middle element (odd length)
or the average of the two middle elements (even length). -/
def pyMedian (xs : List ℚ) : ℚ :=
  let ss := xs.insertionSort (· ≤ ·)
  if ss.length % 2 = 1 then ss.getD (ss.length / 2) 0
  else (ss.getD (ss.length / 2 - 1) 0 + ss.getD (ss.length / 2) 0) / 2

/-- The comparison `abs(z_score) >= t` of the source, where
`z_score = (c − mean)/stdev` and `stdev = √var > 0`, embedded without the
square root: for `t > 0` it is equivalent to `t² · var ≤ (c − mean)²`, and for
`t ≤ 0` it always holds (`|z| ≥ 0 ≥ t`).  `absZscoreGe_iff_real` below proves
this matches the real-valued comparison. -/
def absZscoreGe (c : ℤ) (mean var t : ℚ) : Bool :=
  if t ≤ 0 then true else decide (t ^ 2 * var ≤ ((c : ℚ) - mean) ^ 2)

/-- Keep the most recent `maxlen` elements of a list; this is
`deque(xs, maxlen := maxlen)`, used by `update_config` to resize the window. -/
def dequeKeepLast (maxlen : ℕ) (w : List TrafficStats) : List TrafficStats :=
  w.drop (w.length - maxlen)

/-- `deque.append` on a deque with `maxlen`: append on the right, evicting
from the left when capacity is exceeded. -/
def dequeAppend (maxlen : ℕ) (w : List TrafficStats) (x : TrafficStats) : List TrafficStats :=
  dequeKeepLast maxlen (w ++ [x])

/-- The per-second counts currently held in the window,
`[stats.packet_count for stats in self.traffic_window]` (line 133). -/
def windowCounts (s : DetectorState) : List ℚ :=
  s.traffic_window.map (fun st => (st.packet_count : ℚ))

/-- `AnomalyDetector._generate_alert` (lines 166-213): level from the z-score
magnitude (`≥ 5` critical, `≥ 4` warning, else info), message wording from its
sign (`z > 0` iff `mean < c`, because the stdev is positive). -/
def generate_alert (c : ℤ) (mean var : ℚ) (now : ℚ) : AnomalyAlert :=
  { level :=
      if absZscoreGe c mean var 5 then .critical
      else if absZscoreGe c mean var 4 then .warning
      else .info
    message := if mean < (c : ℚ) then .trafficSpike c else .trafficDrop c
    timestamp := now }

/-- `AnomalyDetector._check_anomaly_for_count` (lines 112-164) as a pure
decision; `now` is the `time.time()` read on line 128.  Branches in source
order: minimum-sample gate, cooldown gate, fewer-than-2-samples gate,
zero-variance gate (`stdev == 0` iff `var = 0`), then the threshold test.
When the window is empty (reachable only with `min_samples = 0`) the source
raises and catches `StatisticsError`, returning `None`; here the
fewer-than-2-samples gate returns `none` on the same inputs. -/
def check_anomaly_for_count (now : ℚ) (packet_count : ℤ) (s : DetectorState) :
    Option AnomalyAlert :=
  if s.traffic_window.length < s.config.min_samples then none
  else if now - s.last_alert_time < s.config.alert_cooldown then none
  else
    let mean_count := listMean (windowCounts s)
    if s.traffic_window.length < 2 then none
    else
      let var := sampleVariance (windowCounts s)
      if var = 0 then none
      else if absZscoreGe packet_count mean_count var s.config.threshold then
        some (generate_alert packet_count mean_count var now)
      else none

/-- Line 88: finalize the in-progress second into the window. -/
def finalizeStep (s : DetectorState) : DetectorState :=
  let b : TrafficStats := ⟨s.current_second, s.current_count⟩
  { s with traffic_window := dequeAppend s.config.window_size s.traffic_window b }

/-- Lines 97-98: one gap-fill iteration: advance `current_second` and push a
zero-count bucket for the skipped second. -/
def gapStep (s : DetectorState) : DetectorState :=
  let b : TrafficStats := ⟨s.current_second + 1, 0⟩
  { s with
      current_second := s.current_second + 1,
      traffic_window := dequeAppend s.config.window_size s.traffic_window b }

/-- The gap-fill loop of lines 96-103 with an explicit iteration budget; the
loop body runs while `current_second < packet_second - 1` and returns the
first alert produced for a zero-count bucket. -/
def gapFillFuel (now : ℚ) (packet_second : ℤ) :
    ℕ → DetectorState → Option AnomalyAlert × DetectorState
  | 0, s => (none, s)
  | n + 1, s =>
    if s.current_second < packet_second - 1 then
      match check_anomaly_for_count now 0 (gapStep s) with
      | some a => (some a, { gapStep s with last_alert_time := now })
      | none => gapFillFuel now packet_second n (gapStep s)
    else (none, s)

/-- The gap-fill loop; the budget `(packet_second - 1 - current_second).toNat`
is exactly the number of iterations the `while` loop of line 96 can make. -/
def gapFill (now : ℚ) (packet_second : ℤ) (s : DetectorState) :
    Option AnomalyAlert × DetectorState :=
  gapFillFuel now packet_second (packet_second - 1 - s.current_second).toNat s

/-- `AnomalyDetector.add_packet` (lines 68-110).  `now` is the wall clock used
by the cooldown check; `packet_second` is `int(timestamp)`. -/
def add_packet (now : ℚ) (packet_second : ℤ) (s : DetectorState) :
    Option AnomalyAlert × DetectorState :=
  if packet_second = s.current_second then
    (none, { s with current_count := s.current_count + 1 })
  else
    let s1 := if 0 < s.current_count then finalizeStep s else s
    match if 0 < s.current_count then check_anomaly_for_count now s.current_count s1 else none with
    | some a => (some a, { s1 with last_alert_time := now })
    | none =>
      match gapFill now packet_second s1 with
      | (some a, s2) => (some a, s2)
      | (none, s2) =>
        (none, { s2 with current_second := packet_second, current_count := 1 })

/-- `AnomalyDetector.update_config` (lines 251-270): install the new config;
if `window_size` changed, rebuild the deque with the new capacity, which keeps
the most recent buckets.  No validation is performed. -/
def update_config (config : AnomalyConfig) (s : DetectorState) : DetectorState :=
  let s1 := { s with config := config }
  if config.window_size ≠ s.config.window_size then
    { s1 with traffic_window := dequeKeepLast config.window_size s1.traffic_window }
  else s1

/-- `AnomalyDetector.reset` (lines 272-280); `now_second` is `int(time.time())`. -/
def reset (now_second : ℤ) (s : DetectorState) : DetectorState :=
  { s with
      traffic_window := [],
      current_second := now_second,
      current_count := 0,
      last_alert_time := 0 }

/-- `AnomalyDetector.__init__` (lines 43-63); `now_second` is `int(time.time())`. -/
def init (config : AnomalyConfig) (now_second : ℤ) : DetectorState :=
  { config := config
    traffic_window := []
    current_second := now_second
    current_count := 0
    last_alert_time := 0 }

/-- The dictionary returned by `get_stats` (lines 215-249).  Conditional keys
are `Option` fields.  The source rounds `mean/median/stdev` to 2 decimals; the
exact values are recorded here, and for `stdev_packets` (irrational
`√variance`) the sample variance is recorded — its presence, which is what the
claims test, is modelled faithfully. -/
structure StatsSnapshot where
  window_size : ℕ
  max_window_size : ℕ
  current_packets_per_sec : ℤ
  threshold : ℚ
  min_samples : ℕ
  last_alert_time : ℚ
  mean_packets : Option ℚ
  median_packets : Option ℚ
  max_packets : Option ℚ
  min_packets : Option ℚ
  stdev_packets : Option ℚ
deriving DecidableEq, Repr

/-- `AnomalyDetector.get_stats` (lines 215-249): the always-present keys, the
keys added when the window is nonempty, and `stdev_packets` added only when it
holds more than one sample. -/
def get_stats (s : DetectorState) : StatsSnapshot :=
  { window_size := s.traffic_window.length
    max_window_size := s.config.window_size
    current_packets_per_sec := s.current_count
    threshold := s.config.threshold
    min_samples := s.config.min_samples
    last_alert_time := s.last_alert_time
    mean_packets :=
      if (windowCounts s).isEmpty then none else some (listMean (windowCounts s))
    median_packets :=
      if (windowCounts s).isEmpty then none else some (pyMedian (windowCounts s))
    max_packets := (windowCounts s).max?
    min_packets := (windowCounts s).min?
    stdev_packets :=
      if 1 < (windowCounts s).length then some (sampleVariance (windowCounts s))
      else none }

/-- The §3 ranges of the spec for `AnomalyConfig` fields, as enforced by the
`/anomaly/config` endpoint (`main.py` lines 547-560). -/
def configInRange (c : AnomalyConfig) : Prop :=
  10 ≤ c.window_size ∧ c.window_size ≤ 300 ∧
  1 ≤ c.threshold ∧ c.threshold ≤ 10 ∧
  5 ≤ c.min_samples ∧ c.min_samples ≤ c.window_size ∧
  5 ≤ c.alert_cooldown ∧ c.alert_cooldown ≤ 300

instance (c : AnomalyConfig) : Decidable (configInRange c) := by
  unfold configInRange; infer_instance

/-- The `/anomaly/config` endpoint `update_anomaly_config` (`main.py` lines
532-590): validate each parameter in source order, raising a descriptive
`HTTPException` (modelled by `Except.error` with the `detail` string) before
anything is applied; only when all four checks pass is the new config built
and installed via `update_config`. -/
def update_anomaly_config (window_size : ℤ) (threshold : ℚ) (min_samples : ℤ)
    (alert_cooldown : ℤ) (s : DetectorState) : Except String DetectorState :=
  if window_size < 10 ∨ window_size > 300 then
    .error "Window size must be between 10 and 300 seconds"
  else if threshold < 1 ∨ threshold > 10 then
    .error "Threshold must be between 1.0 and 10.0"
  else if min_samples < 5 ∨ min_samples > window_size then
    .error "Min samples must be between 5 and window_size"
  else if alert_cooldown < 5 ∨ alert_cooldown > 300 then
    .error "Alert cooldown must be between 5 and 300 seconds"
  else
    .ok (update_config ⟨window_size.toNat, threshold, min_samples.toNat, (alert_cooldown : ℚ)⟩ s)

/-- A WebSocket connection, identified abstractly. -/
abbrev Conn := ℕ

/-- `ConnectionManager` (`main.py` lines 58-114): the set of live connections,
modelled as a duplicate-free list. -/
structure ConnectionManager where
  active_connections : List Conn
deriving DecidableEq, Repr

/-- The observable outcome of one `broadcast` call: the manager afterwards,
the connections a `send_text` was attempted on (in iteration order), and those
whose send did not raise (they received the message). -/
structure BroadcastResult where
  manager : ConnectionManager
  attempts : List Conn
  delivered : List Conn
deriving DecidableEq, Repr

/-- The `for connection in connections` loop of `broadcast` (lines 96-101):
try to send to each connection in turn; a connection whose send raises is
collected into `disconnected`, the others receive the message.  Returns
`(delivered, disconnected)`.  `fails c = true` models `send_text` raising. -/
def broadcastLoop (fails : Conn → Bool) : List Conn → List Conn × List Conn
  | [] => ([], [])
  | c :: rest =>
    let r := broadcastLoop fails rest
    if fails c then (r.1, c :: r.2) else (c :: r.1, r.2)

/-- `ConnectionManager.broadcast` (lines 81-106): return immediately when no
connection is registered; otherwise snapshot the connection set, attempt one
send per connection, and afterwards remove the connections whose send raised.
The function is total: no subscriber failure reaches the publisher. -/
def ConnectionManager.broadcast (fails : Conn → Bool) (m : ConnectionManager) :
    BroadcastResult :=
  if m.active_connections.isEmpty then ⟨m, [], []⟩
  else
    let connections := m.active_connections
    let r := broadcastLoop fails connections
    let newActive :=
      if r.2.isEmpty then m.active_connections
      else m.active_connections.filter (fun c => !(r.2.contains c))
    ⟨⟨newActive⟩, connections, r.1⟩

/-- One call against a detector: the operations of claim C7. -/
inductive DetectorOp
  | addPacket (now : ℚ) (packet_second : ℤ)
  | updateConfig (config : AnomalyConfig)
  | resetOp (now_second : ℤ)

/-- Apply one operation to the detector state. -/
def applyOp (s : DetectorState) : DetectorOp → DetectorState
  | .addPacket now ps => (add_packet now ps s).2
  | .updateConfig c => update_config c s
  | .resetOp t => reset t s

/-- Run a sequence of operations left to right. -/
def runOps (s : DetectorState) : List DetectorOp → DetectorState
  | [] => s
  | op :: rest => runOps (applyOp s op) rest

/-- The window-bound invariant of §8: the rolling window never holds more
buckets than the configured capacity. -/
def WindowBounded (s : DetectorState) : Prop :=
  s.traffic_window.length ≤ s.config.window_size

/-- The real-valued z-score `(c − mean) / stdev` the source computes on line
149, with `stdev = √(sample variance)`.  Mathematical companion of the
executable decision `absZscoreGe`; noncomputable only because of `Real.sqrt`. -/
noncomputable def zscoreReal (c : ℤ) (s : DetectorState) : ℝ :=
  (((c : ℚ) - listMean (windowCounts s) : ℚ) : ℝ) /
    Real.sqrt ((sampleVariance (windowCounts s) : ℚ) : ℝ)

/-! Concrete states used by witnesses and counterexamples. -/

/-- The default configuration (`AnomalyConfig()` field defaults). -/
def cfgD : AnomalyConfig := ⟨60, 3, 10, 30⟩

/-- Ten finalized seconds of 10 packets each: a flat baseline. -/
def wTen : List TrafficStats :=
  [⟨90, 10⟩, ⟨91, 10⟩, ⟨92, 10⟩, ⟨93, 10⟩, ⟨94, 10⟩, ⟨95, 10⟩, ⟨96, 10⟩, ⟨97, 10⟩,
   ⟨98, 10⟩, ⟨99, 10⟩]

/-- A detector mid-stream: flat baseline, 10 packets so far in second 100. -/
def sBase : DetectorState := ⟨cfgD, wTen, 100, 10, 0⟩

/-- Like `sBase` but with a 100-packet spike in progress in second 100. -/
def sSpike : DetectorState := ⟨cfgD, wTen, 100, 100, 0⟩

/-- The alert the detector generates for the zero-count gap bucket at second
101 when `sBase` processes a packet at second 105 (wall clock 1000). -/
def alertDrop : AnomalyAlert := ⟨.info, .trafficDrop 0, 1000⟩

/-- The alert the detector generates when `sSpike` finalizes second 100
(z ≈ 3.05 on the self-inclusive window, so level `info`). -/
def alertSpike : AnomalyAlert := ⟨.info, .trafficSpike 100, 1000⟩

/-- The detector state produced by a successful config update through the
endpoint with the default parameter values. -/
def sOk : DetectorState := update_config ⟨60, 3, 10, 30⟩ (init cfgD 0)

/-- `wTen` plus the finalized bucket for second 100: eleven equal counts. -/
def wEleven : List TrafficStats := wTen ++ [⟨100, 10⟩]

/-- `wEleven` plus the zero-count gap bucket for second 101. -/
def wTwelve : List TrafficStats := wEleven ++ [⟨101, 0⟩]

/-- A detector whose window is the flat 11-bucket baseline. -/
def sEleven : DetectorState := ⟨cfgD, wEleven, 100, 10, 0⟩

/-- The state the gap-fill iteration for second 101 classifies against:
twelve buckets ending in the zero bucket. -/
def sTwelve : DetectorState := ⟨cfgD, wTwelve, 101, 10, 0⟩

/-- A detector that emitted an alert at wall-clock time 1000. -/
def sCool : DetectorState := ⟨cfgD, wTen, 100, 10, 1000⟩

/-- A detector whose window is one short bucket under a `min_samples = 0`
configuration, to exercise the fewer-than-2-samples gate in isolation. -/
def sOne : DetectorState := ⟨⟨60, 3, 0, 30⟩, [⟨0, 5⟩], 1, 0, 0⟩

end PacketMind

namespace PacketMind

/-! ## Helper lemmas -/

theorem dequeKeepLast_length_le (m : ℕ) (w : List TrafficStats) :
    (dequeKeepLast m w).length ≤ m := by
  simp [dequeKeepLast]; omega

theorem dequeAppend_length_le (m : ℕ) (w : List TrafficStats) (x : TrafficStats) :
    (dequeAppend m w x).length ≤ m := by
  simp [dequeAppend, dequeKeepLast]; omega

theorem dequeAppend_subset (m : ℕ) (w : List TrafficStats) (x : TrafficStats) :
    dequeAppend m w x ⊆ w ++ [x] :=
  List.drop_subset _ _

/-- Appending `x` to a window that already ends in `x` leaves the window
ending in `x, x`, for capacity at least 2. -/
theorem dequeAppend_double (m : ℕ) (v : List TrafficStats) (x : TrafficStats)
    (hm : 2 ≤ m) : ∃ u, dequeAppend m (v ++ [x]) x = u ++ [x, x] := by
  refine ⟨v.drop (v.length + 2 - m), ?_⟩
  unfold dequeAppend dequeKeepLast
  rw [List.append_assoc]
  rw [List.drop_append_of_le_length (by simp; omega)]
  simp

theorem update_config_config (c : AnomalyConfig) (s : DetectorState) :
    (update_config c s).config = c := by
  unfold update_config
  split <;> rfl

theorem dequeAppend_eq_append (m : ℕ) (w : List TrafficStats) (x : TrafficStats)
    (hm : 1 ≤ m) : dequeAppend m w x = w.drop (w.length + 1 - m) ++ [x] := by
  unfold dequeAppend dequeKeepLast
  rw [List.drop_append_of_le_length (by simp; omega)]
  congr 2
  simp

theorem dequeAppend_getLast (m : ℕ) (w : List TrafficStats) (x : TrafficStats)
    (hm : 1 ≤ m) : (dequeAppend m w x).getLast? = some x := by
  rw [dequeAppend_eq_append m w x hm]
  simp [List.getLast?_concat]

theorem dequeAppend_mem (m : ℕ) (w : List TrafficStats) (x : TrafficStats)
    (hm : 1 ≤ m) : x ∈ dequeAppend m w x := by
  rw [dequeAppend_eq_append m w x hm]
  simp

theorem windowCounts_length (s : DetectorState) :
    (windowCounts s).length = s.traffic_window.length := by
  simp [windowCounts]

theorem sampleVariance_nonneg (xs : List ℚ) (h2 : 2 ≤ xs.length) :
    0 ≤ sampleVariance xs := by
  unfold sampleVariance
  apply div_nonneg
  · apply List.sum_nonneg
    intro x hx
    obtain ⟨y, hy, rfl⟩ := List.mem_map.mp hx
    positivity
  · have : (2 : ℚ) ≤ (xs.length : ℚ) := by exact_mod_cast h2
    linarith

/-- The squared-comparison embedding agrees with the source's comparison of
`|z_score|` against a positive bound, where `stdev = √var`. -/
theorem absZscoreGe_iff_real (c : ℤ) (m v t : ℚ) (hv : 0 < v) (ht : 0 < t) :
    (absZscoreGe c m v t = true ↔
      (t : ℝ) ≤ |(((c : ℚ) - m : ℚ) : ℝ) / Real.sqrt ((v : ℚ) : ℝ)|) := by
  have hsv : (0 : ℝ) < Real.sqrt ((v : ℚ) : ℝ) := Real.sqrt_pos.mpr (by exact_mod_cast hv)
  unfold absZscoreGe
  rw [if_neg (not_le.mpr ht), decide_eq_true_eq]
  rw [abs_div, abs_of_pos hsv, le_div_iff hsv]
  have hiff : (t : ℝ) * Real.sqrt ((v : ℚ) : ℝ) ≤ |(((c : ℚ) - m : ℚ) : ℝ)| ↔
      ((t : ℝ) * Real.sqrt ((v : ℚ) : ℝ)) ^ 2 ≤ |(((c : ℚ) - m : ℚ) : ℝ)| ^ 2 :=
    (pow_le_pow_iff_left (by positivity) (abs_nonneg _) two_ne_zero).symm
  rw [hiff, mul_pow, Real.sq_sqrt (by positivity), sq_abs]
  constructor
  · intro h
    exact_mod_cast h
  · intro h
    exact_mod_cast h

/-! Branch lemmas for `_check_anomaly_for_count`, one per skip condition of
the source, plus the firing case and an inversion principle. -/

theorem check_skip_min_samples (now : ℚ) (c : ℤ) (s : DetectorState)
    (h : s.traffic_window.length < s.config.min_samples) :
    check_anomaly_for_count now c s = none := by
  simp only [check_anomaly_for_count, if_pos h]

theorem check_skip_cooldown (now : ℚ) (c : ℤ) (s : DetectorState)
    (h : now - s.last_alert_time < s.config.alert_cooldown) :
    check_anomaly_for_count now c s = none := by
  by_cases g1 : s.traffic_window.length < s.config.min_samples
  · exact check_skip_min_samples now c s g1
  · simp only [check_anomaly_for_count, if_neg g1, if_pos h]

theorem check_skip_len2 (now : ℚ) (c : ℤ) (s : DetectorState)
    (h : s.traffic_window.length < 2) :
    check_anomaly_for_count now c s = none := by
  by_cases g1 : s.traffic_window.length < s.config.min_samples
  · exact check_skip_min_samples now c s g1
  · by_cases g2 : now - s.last_alert_time < s.config.alert_cooldown
    · exact check_skip_cooldown now c s g2
    · simp only [check_anomaly_for_count, if_neg g1, if_neg g2, if_pos h]

theorem check_skip_var0 (now : ℚ) (c : ℤ) (s : DetectorState)
    (h : sampleVariance (windowCounts s) = 0) :
    check_anomaly_for_count now c s = none := by
  by_cases g1 : s.traffic_window.length < s.config.min_samples
  · exact check_skip_min_samples now c s g1
  · by_cases g2 : now - s.last_alert_time < s.config.alert_cooldown
    · exact check_skip_cooldown now c s g2
    · by_cases g3 : s.traffic_window.length < 2
      · exact check_skip_len2 now c s g3
      · simp only [check_anomaly_for_count, if_neg g1, if_neg g2, if_neg g3, if_pos h]

theorem check_fires (now : ℚ) (c : ℤ) (s : DetectorState)
    (g1 : ¬ s.traffic_window.length < s.config.min_samples)
    (g2 : ¬ now - s.last_alert_time < s.config.alert_cooldown)
    (g3 : ¬ s.traffic_window.length < 2)
    (g4 : ¬ sampleVariance (windowCounts s) = 0)
    (g5 : absZscoreGe c (listMean (windowCounts s)) (sampleVariance (windowCounts s))
        s.config.threshold = true) :
    check_anomaly_for_count now c s =
      some (generate_alert c (listMean (windowCounts s))
        (sampleVariance (windowCounts s)) now) := by
  simp only [check_anomaly_for_count, if_neg g1, if_neg g2, if_neg g3, if_neg g4, if_pos g5]

theorem check_skip_threshold (now : ℚ) (c : ℤ) (s : DetectorState)
    (g5 : absZscoreGe c (listMean (windowCounts s)) (sampleVariance (windowCounts s))
        s.config.threshold = false) :
    check_anomaly_for_count now c s = none := by
  by_cases g1 : s.traffic_window.length < s.config.min_samples
  · exact check_skip_min_samples now c s g1
  · by_cases g2 : now - s.last_alert_time < s.config.alert_cooldown
    · exact check_skip_cooldown now c s g2
    · by_cases g3 : s.traffic_window.length < 2
      · exact check_skip_len2 now c s g3
      · by_cases g4 : sampleVariance (windowCounts s) = 0
        · exact check_skip_var0 now c s g4
        · simp only [check_anomaly_for_count, if_neg g1, if_neg g2, if_neg g3, if_neg g4,
            g5, Bool.false_eq_true, if_false]

theorem check_some_inv (now : ℚ) (c : ℤ) (s : DetectorState) (a : AnomalyAlert)
    (h : check_anomaly_for_count now c s = some a) :
    ¬ s.traffic_window.length < s.config.min_samples ∧
    ¬ now - s.last_alert_time < s.config.alert_cooldown ∧
    ¬ s.traffic_window.length < 2 ∧
    ¬ sampleVariance (windowCounts s) = 0 ∧
    absZscoreGe c (listMean (windowCounts s)) (sampleVariance (windowCounts s))
      s.config.threshold = true ∧
    a = generate_alert c (listMean (windowCounts s)) (sampleVariance (windowCounts s)) now := by
  simp only [check_anomaly_for_count] at h
  split_ifs at h with g1 g2 g3 g4 g5
  exact ⟨g1, g2, g3, g4, g5, (Option.some.inj h).symm⟩

/-- `broadcastLoop` delivers to exactly the non-failing connections and
collects exactly the failing ones, preserving order. -/
theorem broadcastLoop_eq (fails : Conn → Bool) (l : List Conn) :
    broadcastLoop fails l = (l.filter (fun c => !(fails c)), l.filter fails) := by
  induction l with
  | nil => rfl
  | cons c rest ih =>
    simp only [broadcastLoop, ih, List.filter_cons]
    cases h : fails c <;> simp [h]

/-! ## Claim C9 -/

/-- C9: publishing one message to a broadcaster with registered subscribers
attempts exactly one delivery to each; a subscriber whose send raises does not
prevent the others from receiving the message, and every failing subscriber is
removed from the live set afterward, while every non-failing one receives the
message exactly once and stays; `broadcast` is a total function, so no
subscriber failure surfaces to the publisher; and a publish with zero
subscribers is a silent no-op (state unchanged, no delivery attempted). -/
theorem C9_broadcast_fanout (fails fails2 : Conn → Bool) (m m2 : ConnectionManager)
    (c c2 : Conn)
    (hnd : m.active_connections.Nodup) (hc : c ∈ m.active_connections)
    (hok : fails c = false)
    (hnd2 : m2.active_connections.Nodup) (hc2 : c2 ∈ m2.active_connections)
    (hfail : fails2 c2 = true) :
    ConnectionManager.broadcast fails ⟨[]⟩ = ⟨⟨[]⟩, [], []⟩ ∧
    (ConnectionManager.broadcast fails m).attempts.count c = 1 ∧
    (ConnectionManager.broadcast fails m).delivered.count c = 1 ∧
    c ∈ (ConnectionManager.broadcast fails m).manager.active_connections ∧
    (ConnectionManager.broadcast fails2 m2).attempts.count c2 = 1 ∧
    c2 ∉ (ConnectionManager.broadcast fails2 m2).delivered ∧
    c2 ∉ (ConnectionManager.broadcast fails2 m2).manager.active_connections := by
  have hne : m.active_connections.isEmpty = false := by
    simpa using List.ne_nil_of_mem hc
  have hne2 : m2.active_connections.isEmpty = false := by
    simpa using List.ne_nil_of_mem hc2
  refine ⟨rfl, ?_, ?_, ?_, ?_, ?_, ?_⟩
  · simp only [ConnectionManager.broadcast, hne, broadcastLoop_eq]
    simpa using List.count_eq_one_of_mem hnd hc
  · simp only [ConnectionManager.broadcast, hne, broadcastLoop_eq]
    have hmem : c ∈ m.active_connections.filter (fun x => !(fails x)) :=
      List.mem_filter.mpr ⟨hc, by simp [hok]⟩
    simpa using List.count_eq_one_of_mem (hnd.filter _) hmem
  · simp only [ConnectionManager.broadcast, hne, broadcastLoop_eq]
    by_cases hdis : (m.active_connections.filter fails).isEmpty
    · simpa [hdis] using hc
    · have hnotin : c ∉ m.active_connections.filter fails := by
        simp [List.mem_filter, hok]
      have hcont : (m.active_connections.filter fails).contains c = false := by
        simpa using hnotin
      simp only [Bool.not_eq_true] at hdis
      simp [hdis, List.mem_filter, hc, hcont, hok]
  · simp only [ConnectionManager.broadcast, hne2, broadcastLoop_eq]
    simpa using List.count_eq_one_of_mem hnd2 hc2
  · simp only [ConnectionManager.broadcast, hne2, broadcastLoop_eq]
    simp [List.mem_filter, hfail]
  · simp only [ConnectionManager.broadcast, hne2, broadcastLoop_eq]
    have hmem : c2 ∈ m2.active_connections.filter fails2 :=
      List.mem_filter.mpr ⟨hc2, hfail⟩
    have hdis : (m2.active_connections.filter fails2).isEmpty = false := by
      simpa using List.ne_nil_of_mem hmem
    have hcont : (m2.active_connections.filter fails2).contains c2 = true := by
      simpa using hmem
    simp [hdis, List.mem_filter, hcont, hfail]

/-- Witness for C9: three subscribers `0, 1, 2`; subscriber `1` raises on
send; `0` is attempted once, delivered once and kept; `1` is attempted once,
not delivered and removed; a publish to zero subscribers changes nothing. -/
theorem C9_broadcast_fanout_witness :
    ConnectionManager.broadcast (fun x => x == 1) ⟨[]⟩ = ⟨⟨[]⟩, [], []⟩ ∧
    (ConnectionManager.broadcast (fun x => x == 1) ⟨[0, 1, 2]⟩).attempts.count 0 = 1 ∧
    (ConnectionManager.broadcast (fun x => x == 1) ⟨[0, 1, 2]⟩).delivered.count 0 = 1 ∧
    0 ∈ (ConnectionManager.broadcast (fun x => x == 1) ⟨[0, 1, 2]⟩).manager.active_connections ∧
    (ConnectionManager.broadcast (fun x => x == 1) ⟨[0, 1, 2]⟩).attempts.count 1 = 1 ∧
    1 ∉ (ConnectionManager.broadcast (fun x => x == 1) ⟨[0, 1, 2]⟩).delivered ∧
    1 ∉ (ConnectionManager.broadcast (fun x => x == 1) ⟨[0, 1, 2]⟩).manager.active_connections :=
  C9_broadcast_fanout (fun x => x == 1) (fun x => x == 1) ⟨[0, 1, 2]⟩ ⟨[0, 1, 2]⟩ 0 1
    (by decide) (by decide) (by decide) (by decide) (by decide) (by decide)

/-! ## Claim C2 -/

/-- C2 is false as stated: constructing an `AnomalyConfig` with out-of-range
values is not an error.  `AnomalyConfig` is a plain dataclass with no
validation: `AnomalyConfig(window_size=5)` and
`AnomalyConfig(window_size=30, min_samples=40)` are both constructed without
complaint, and `AnomalyDetector.update_config` applies them to a detector
without rejecting them. -/
theorem C2_counterexample :
    (¬ configInRange ⟨5, 3, 10, 30⟩) ∧
    (¬ configInRange ⟨30, 3, 40, 30⟩) ∧
    (update_config ⟨5, 3, 10, 30⟩ (init cfgD 0)).config = ⟨5, 3, 10, 30⟩ ∧
    (update_config ⟨30, 3, 40, 30⟩ (init cfgD 0)).config = ⟨30, 3, 40, 30⟩ := by
  refine ⟨?_, ?_, update_config_config _ _, update_config_config _ _⟩
  · norm_num [configInRange]
  · norm_num [configInRange]

/-- C2 (amended): range validation lives in the `/anomaly/config` endpoint,
not in `AnomalyConfig` itself.  Whenever the endpoint succeeds, the submitted
parameters were all within the §3 ranges and the installed config carries
exactly the submitted values (no clamping), hence is in range; whenever any
parameter is out of range, the endpoint returns a descriptive error and no
state is produced (nothing is partially applied). -/
theorem C2_endpoint_validates (ws ms ac : ℤ) (th : ℚ) (s s' : DetectorState)
    (hok : update_anomaly_config ws th ms ac s = .ok s')
    (ws2 ms2 ac2 : ℤ) (th2 : ℚ) (s2 : DetectorState)
    (hbad : ¬(10 ≤ ws2 ∧ ws2 ≤ 300 ∧ 1 ≤ th2 ∧ th2 ≤ 10 ∧ 5 ≤ ms2 ∧ ms2 ≤ ws2 ∧
        5 ≤ ac2 ∧ ac2 ≤ 300)) :
    (10 ≤ ws ∧ ws ≤ 300 ∧ 1 ≤ th ∧ th ≤ 10 ∧ 5 ≤ ms ∧ ms ≤ ws ∧ 5 ≤ ac ∧ ac ≤ 300) ∧
    s'.config = ⟨ws.toNat, th, ms.toNat, (ac : ℚ)⟩ ∧
    configInRange s'.config ∧
    ∃ msg, update_anomaly_config ws2 th2 ms2 ac2 s2 = .error msg := by
  unfold update_anomaly_config at hok
  split_ifs at hok with h1 h2 h3 h4
  have hs : update_config ⟨ws.toNat, th, ms.toNat, (ac : ℚ)⟩ s = s' :=
    Except.ok.inj hok
  rw [not_or] at h1 h2 h3 h4
  obtain ⟨h1a, h1b⟩ := h1
  obtain ⟨h2a, h2b⟩ := h2
  obtain ⟨h3a, h3b⟩ := h3
  obtain ⟨h4a, h4b⟩ := h4
  refine ⟨⟨by omega, by omega, le_of_not_lt h2a, le_of_not_lt h2b, by omega, by omega,
    by omega, by omega⟩, ?_, ?_, ?_⟩
  · rw [← hs]; exact update_config_config _ _
  · rw [← hs, update_config_config]
    unfold configInRange
    dsimp only
    have hi4a : (5 : ℤ) ≤ ac := by omega
    have hi4b : ac ≤ (300 : ℤ) := by omega
    have hq1 : (5 : ℚ) ≤ (ac : ℚ) := by exact_mod_cast hi4a
    have hq2 : ((ac : ℚ)) ≤ 300 := by exact_mod_cast hi4b
    exact ⟨by omega, by omega, le_of_not_lt h2a, le_of_not_lt h2b, by omega, by omega,
      hq1, hq2⟩
  · unfold update_anomaly_config
    split_ifs with g1 g2 g3 g4
    · exact ⟨_, rfl⟩
    · exact ⟨_, rfl⟩
    · exact ⟨_, rfl⟩
    · exact ⟨_, rfl⟩
    · exfalso
      rw [not_or] at g1 g2 g3 g4
      exact hbad ⟨by omega, by omega, le_of_not_lt g2.1, le_of_not_lt g2.2, by omega,
        by omega, by omega, by omega⟩

/-- Witness for the amended C2: the endpoint accepts the default parameters
unchanged and rejects `window_size = 5` with an error. -/
theorem C2_endpoint_validates_witness :
    ((10 : ℤ) ≤ 60 ∧ (60 : ℤ) ≤ 300 ∧ (1 : ℚ) ≤ 3 ∧ (3 : ℚ) ≤ 10 ∧ (5 : ℤ) ≤ 10 ∧
      (10 : ℤ) ≤ 60 ∧ (5 : ℤ) ≤ 30 ∧ (30 : ℤ) ≤ 300) ∧
    sOk.config = ⟨(60 : ℤ).toNat, 3, (10 : ℤ).toNat, ((30 : ℤ) : ℚ)⟩ ∧
    configInRange sOk.config ∧
    ∃ msg, update_anomaly_config 5 3 10 30 (init cfgD 0) = .error msg :=
  C2_endpoint_validates 60 10 30 3 (init cfgD 0) sOk
    (by simp [update_anomaly_config, sOk]; norm_num) 5 10 30 3 (init cfgD 0) (by norm_num)

/-! ## Unfolding lemmas for `add_packet` and the gap-fill loop -/

/-- When a gap exists and the first zero bucket's classification fires, the
loop returns that alert at once; the returned state carries exactly the one
zero bucket appended by that iteration. -/
theorem gapFill_step_some (now : ℚ) (ps : ℤ) (s : DetectorState) (a : AnomalyAlert)
    (hlt : s.current_second < ps - 1)
    (hch : check_anomaly_for_count now 0 (gapStep s) = some a) :
    gapFill now ps s = (some a, { gapStep s with last_alert_time := now }) := by
  unfold gapFill
  have hfuel : (ps - 1 - s.current_second).toNat =
      (ps - 1 - (s.current_second + 1)).toNat + 1 := by omega
  rw [hfuel]
  simp only [gapFillFuel, if_pos hlt, hch]

/-- An alert returned by the gap-fill loop records the alert time. -/
theorem gapFillFuel_some_lastAlert (now : ℚ) (ps : ℤ) :
    ∀ (n : ℕ) (s : DetectorState) (a : AnomalyAlert) (s' : DetectorState),
      gapFillFuel now ps n s = (some a, s') → s'.last_alert_time = now := by
  intro n
  induction n with
  | zero =>
    intro s a s' h
    simp only [gapFillFuel, Prod.mk.injEq] at h
    exact absurd h.1 (by simp)
  | succ k ih =>
    intro s a s' h
    simp only [gapFillFuel] at h
    split at h
    · cases hck : check_anomaly_for_count now 0 (gapStep s) with
      | some b =>
        rw [hck] at h
        simp only [Prod.mk.injEq] at h
        rw [← h.2]
      | none =>
        rw [hck] at h
        exact ih _ _ _ h
    · simp only [Prod.mk.injEq] at h
      exact absurd h.1 (by simp)

/-- The gap-fill loop never changes the configuration. -/
theorem gapFillFuel_config (now : ℚ) (ps : ℤ) :
    ∀ (n : ℕ) (s : DetectorState), ((gapFillFuel now ps n s).2).config = s.config := by
  intro n
  induction n with
  | zero => intro s; rfl
  | succ k ih =>
    intro s
    simp only [gapFillFuel]
    split
    · cases hck : check_anomaly_for_count now 0 (gapStep s) with
      | some b => rfl
      | none => exact ih (gapStep s)
    · rfl

/-- The gap-fill loop preserves the window bound. -/
theorem gapFillFuel_bounded (now : ℚ) (ps : ℤ) :
    ∀ (n : ℕ) (s : DetectorState), WindowBounded s →
      WindowBounded (gapFillFuel now ps n s).2 := by
  intro n
  induction n with
  | zero => intro s h; exact h
  | succ k ih =>
    intro s h
    simp only [gapFillFuel]
    split
    · have hg : WindowBounded (gapStep s) := dequeAppend_length_le _ _ _
      cases hck : check_anomaly_for_count now 0 (gapStep s) with
      | some b => exact hg
      | none => exact ih (gapStep s) hg
    · exact h

/-- The gap-fill loop keeps every window bucket's second at or below the
in-progress second. -/
theorem gapFillFuel_chrono (now : ℚ) (ps : ℤ) :
    ∀ (n : ℕ) (s : DetectorState),
      (∀ b ∈ s.traffic_window, b.timestamp ≤ s.current_second) →
      ∀ b ∈ (gapFillFuel now ps n s).2.traffic_window,
        b.timestamp ≤ (gapFillFuel now ps n s).2.current_second := by
  intro n
  induction n with
  | zero => intro s h; exact h
  | succ k ih =>
    intro s h
    have hstep : ∀ b ∈ (gapStep s).traffic_window,
        b.timestamp ≤ (gapStep s).current_second := by
      intro b hb
      have hb' := dequeAppend_subset _ _ _ hb
      rcases List.mem_append.mp hb' with hold | hnew
      · have := h b hold
        show b.timestamp ≤ s.current_second + 1
        omega
      · simp only [List.mem_singleton] at hnew
        subst hnew
        show s.current_second + 1 ≤ s.current_second + 1
        omega
    simp only [gapFillFuel]
    split
    · cases hck : check_anomaly_for_count now 0 (gapStep s) with
      | some b => exact hstep
      | none => exact ih (gapStep s) hstep
    · exact h

/-- When the loop returns an alert it stopped short of `packet_second`: the
in-progress second never passes `packet_second - 1` and the in-progress count
is untouched. -/
theorem gapFillFuel_some_state (now : ℚ) (ps : ℤ) :
    ∀ (n : ℕ) (s : DetectorState) (a : AnomalyAlert) (s' : DetectorState),
      gapFillFuel now ps n s = (some a, s') →
      s'.current_second ≤ ps - 1 ∧ s'.current_count = s.current_count := by
  intro n
  induction n with
  | zero =>
    intro s a s' h
    simp only [gapFillFuel, Prod.mk.injEq] at h
    exact absurd h.1 (by simp)
  | succ k ih =>
    intro s a s' h
    simp only [gapFillFuel] at h
    split at h
    · cases hck : check_anomaly_for_count now 0 (gapStep s) with
      | some b =>
        rw [hck] at h
        simp only [Prod.mk.injEq] at h
        rw [← h.2]
        constructor
        · show s.current_second + 1 ≤ ps - 1
          omega
        · rfl
      | none =>
        simp only [hck] at h
        exact ih (gapStep s) a s' h
    · simp only [Prod.mk.injEq] at h
      exact absurd h.1 (by simp)

/-- Finalization whose classification fires short-circuits `add_packet`:
the call returns that alert and the state is the post-append state with only
`last_alert_time` updated. -/
theorem add_packet_finalize_some (now : ℚ) (ps : ℤ) (s : DetectorState) (a : AnomalyAlert)
    (hne : ps ≠ s.current_second) (hc : 0 < s.current_count)
    (hch : check_anomaly_for_count now s.current_count (finalizeStep s) = some a) :
    add_packet now ps s = (some a, { finalizeStep s with last_alert_time := now }) := by
  unfold add_packet
  rw [if_neg hne]
  simp only [if_pos hc, hch]

/-- Finalization whose classification does not fire hands control to the
gap-fill loop; an alert from the loop is returned as is. -/
theorem add_packet_gap_some (now : ℚ) (ps : ℤ) (s : DetectorState) (a : AnomalyAlert)
    (s2 : DetectorState)
    (hne : ps ≠ s.current_second) (hc : 0 < s.current_count)
    (hnone : check_anomaly_for_count now s.current_count (finalizeStep s) = none)
    (hg : gapFill now ps (finalizeStep s) = (some a, s2)) :
    add_packet now ps s = (some a, s2) := by
  unfold add_packet
  rw [if_neg hne]
  simp only [if_pos hc, hnone, hg]

/-- Any alert returned by `add_packet` records the alert time in the
returned state (`last_alert_time = now`). -/
theorem add_packet_some_lastAlert (now : ℚ) (ps : ℤ) (s : DetectorState)
    (a : AnomalyAlert) (s' : DetectorState)
    (h : add_packet now ps s = (some a, s')) : s'.last_alert_time = now := by
  unfold add_packet at h
  split_ifs at h with hps hc
  · simp only [Prod.mk.injEq] at h
    exact absurd h.1 (by simp)
  · cases hck : check_anomaly_for_count now s.current_count (finalizeStep s) with
    | some b =>
      simp only [hck, Prod.mk.injEq] at h
      rw [← h.2]
    | none =>
      simp only [hck] at h
      cases hg : gapFill now ps (finalizeStep s) with
      | mk og sg =>
        cases og with
        | some b =>
          simp only [hg, Prod.mk.injEq] at h
          rw [← h.2]
          unfold gapFill at hg
          exact gapFillFuel_some_lastAlert now ps _ _ _ _ hg
        | none =>
          simp only [hg, Prod.mk.injEq] at h
          exact absurd h.1 (by simp)
  · cases hg : gapFill now ps s with
    | mk og sg =>
      cases og with
      | some b =>
        simp only [hg, Prod.mk.injEq] at h
        rw [← h.2]
        unfold gapFill at hg
        exact gapFillFuel_some_lastAlert now ps _ _ _ _ hg
      | none =>
        simp only [hg, Prod.mk.injEq] at h
        exact absurd h.1 (by simp)

/-- A packet in the next second finalizes the in-progress bucket and runs no
gap fill: the resulting window is exactly the post-finalization window. -/
theorem add_packet_next_second_window (now : ℚ) (s : DetectorState)
    (hc : 0 < s.current_count) :
    (add_packet now (s.current_second + 1) s).2.traffic_window =
      (finalizeStep s).traffic_window := by
  unfold add_packet
  rw [if_neg (by omega : ¬(s.current_second + 1 = s.current_second))]
  simp only [if_pos hc]
  cases hck : check_anomaly_for_count now s.current_count (finalizeStep s) with
  | some b => simp [hck]
  | none =>
    simp only [hck]
    have hg : gapFill now (s.current_second + 1) (finalizeStep s) =
        (none, finalizeStep s) := by
      unfold gapFill
      have hz : (s.current_second + 1 - 1 - (finalizeStep s).current_second).toNat = 0 := by
        show (s.current_second + 1 - 1 - s.current_second).toNat = 0
        omega
      rw [hz]
      rfl
    rw [hg]

/-! ## Claim C4 -/

/-- C4: the cooldown gate.  First, any classification at wall-clock time
`now1` with `now1 − lastAlertTime < alertCooldown` yields no alert.  Second, a
qualifying deviation (enough samples, nonzero variance, `|z| ≥ threshold`)
classified once the cooldown has elapsed does yield an alert.  Third, an alert
emitted by `add_packet` at wall-clock `now3` sets `lastAlertTime = now3`, so
the suppression window restarts at each emission — hence two qualifying
spikes within the cooldown produce one alert and a third after it produces a
second one. -/
theorem C4_cooldown_suppression
    (now1 : ℚ) (c1 : ℤ) (s1 : DetectorState)
    (h1 : now1 - s1.last_alert_time < s1.config.alert_cooldown)
    (now2 : ℚ) (c2 : ℤ) (s2 : DetectorState)
    (h2a : ¬ s2.traffic_window.length < s2.config.min_samples)
    (h2b : ¬ now2 - s2.last_alert_time < s2.config.alert_cooldown)
    (h2c : ¬ s2.traffic_window.length < 2)
    (h2d : ¬ sampleVariance (windowCounts s2) = 0)
    (h2e : absZscoreGe c2 (listMean (windowCounts s2)) (sampleVariance (windowCounts s2))
        s2.config.threshold = true)
    (now3 : ℚ) (ps3 : ℤ) (s3 : DetectorState) (a3 : AnomalyAlert) (s3' : DetectorState)
    (h3 : add_packet now3 ps3 s3 = (some a3, s3')) :
    check_anomaly_for_count now1 c1 s1 = none ∧
    (check_anomaly_for_count now2 c2 s2).isSome = true ∧
    s3'.last_alert_time = now3 := by
  refine ⟨check_skip_cooldown now1 c1 s1 h1, ?_,
    add_packet_some_lastAlert now3 ps3 s3 a3 s3' h3⟩
  rw [check_fires now2 c2 s2 h2a h2b h2c h2d h2e]
  rfl

/-- Witness for C4: a detector that alerted at time 1000 stays silent at time
1010 (10 s < 30 s cooldown); the 12-bucket drop scenario alerts once its
detector's cooldown is over; and the spike alert emitted at time 1000 stamps
`last_alert_time = 1000`. -/
theorem C4_cooldown_suppression_witness :
    check_anomaly_for_count 1010 10 sCool = none ∧
    (check_anomaly_for_count 1000 0 sTwelve).isSome = true ∧
    ({ finalizeStep sSpike with last_alert_time := 1000 } : DetectorState).last_alert_time =
      1000 :=
  C4_cooldown_suppression 1010 10 sCool
    (by norm_num [sCool, cfgD])
    1000 0 sTwelve
    (by decide)
    (by norm_num [sTwelve, cfgD])
    (by decide)
    (by norm_num [windowCounts, sampleVariance, listMean, sTwelve, wTwelve, wEleven, wTen,
      cfgD, List.sum_cons, List.sum_nil])
    (by norm_num [windowCounts, sampleVariance, listMean, absZscoreGe, sTwelve, wTwelve,
      wEleven, wTen, cfgD, List.sum_cons, List.sum_nil])
    1000 105 sSpike alertSpike ({ finalizeStep sSpike with last_alert_time := 1000 })
    (add_packet_finalize_some 1000 105 sSpike alertSpike (by decide) (by decide)
      (by norm_num [check_anomaly_for_count, windowCounts, sampleVariance, listMean,
        absZscoreGe, generate_alert, finalizeStep, dequeAppend, dequeKeepLast, sSpike, wTen,
        cfgD, alertSpike, List.sum_cons, List.sum_nil]))

/-! ## Claim C8 -/

/-- C8: classification is a defined skip, never a division by zero: with fewer
buckets than `minSamples`, or fewer than 2 buckets, or zero variance
(`stdev = √variance = 0`), `_check_anomaly_for_count` returns no alert; and
`get_stats` carries a `stdev_packets` entry exactly when the window holds at
least 2 samples. -/
theorem C8_no_division_by_zero
    (now1 : ℚ) (c1 : ℤ) (s1 : DetectorState)
    (h1 : s1.traffic_window.length < s1.config.min_samples)
    (now2 : ℚ) (c2 : ℤ) (s2 : DetectorState)
    (h2 : s2.traffic_window.length < 2)
    (now3 : ℚ) (c3 : ℤ) (s3 : DetectorState)
    (h3 : sampleVariance (windowCounts s3) = 0)
    (s4 : DetectorState) :
    check_anomaly_for_count now1 c1 s1 = none ∧
    check_anomaly_for_count now2 c2 s2 = none ∧
    check_anomaly_for_count now3 c3 s3 = none ∧
    ((get_stats s4).stdev_packets.isSome = true ↔ 2 ≤ s4.traffic_window.length) := by
  refine ⟨check_skip_min_samples now1 c1 s1 h1, check_skip_len2 now2 c2 s2 h2,
    check_skip_var0 now3 c3 s3 h3, ?_⟩
  unfold get_stats
  dsimp only
  simp only [windowCounts_length]
  split_ifs with h
  · simp only [Option.isSome_some]
    constructor
    · intro _; omega
    · intro _; trivial
  · simp only [Option.isSome_none, Bool.false_eq_true, false_iff]
    omega

/-- Witness for C8: a fresh empty detector (0 < 10 samples), a single-bucket
window under `min_samples = 0`, the flat 11-bucket window (variance 0), all
skip; and `sBase` (10 buckets) does report a stdev entry. -/
theorem C8_no_division_by_zero_witness :
    check_anomaly_for_count 0 5 (init cfgD 0) = none ∧
    check_anomaly_for_count 0 5 sOne = none ∧
    check_anomaly_for_count 1000 10 sEleven = none ∧
    ((get_stats sBase).stdev_packets.isSome = true ↔ 2 ≤ sBase.traffic_window.length) :=
  C8_no_division_by_zero 0 5 (init cfgD 0) (by decide) 0 5 sOne (by decide)
    1000 10 sEleven
    (by norm_num [windowCounts, sampleVariance, listMean, sEleven, wEleven, wTen, cfgD,
      List.sum_cons, List.sum_nil])
    sBase

/-! ## Claim C1 -/

/-- C1: a finalized or gap-filled count is classified only after its bucket
has been appended: the window handed to `_check_anomaly_for_count` ends in —
and hence contains — the very bucket holding the count under test, so the
mean/stdev computed from that window include the sample being evaluated; and
the alert decision of `add_packet` (resp. of the gap-fill loop) is exactly
the decision taken on that self-inclusive window. -/
theorem C1_statistics_include_sample
    (now : ℚ) (ps : ℤ) (s : DetectorState) (a : AnomalyAlert)
    (hne : ps ≠ s.current_second) (hc : 0 < s.current_count)
    (hw : 1 ≤ s.config.window_size)
    (hch : check_anomaly_for_count now s.current_count (finalizeStep s) = some a)
    (now2 : ℚ) (ps2 : ℤ) (s2 : DetectorState) (a2 : AnomalyAlert)
    (hlt2 : s2.current_second < ps2 - 1) (hw2 : 1 ≤ s2.config.window_size)
    (hch2 : check_anomaly_for_count now2 0 (gapStep s2) = some a2) :
    ((finalizeStep s).traffic_window.getLast? =
        some ⟨s.current_second, s.current_count⟩ ∧
      (⟨s.current_second, s.current_count⟩ : TrafficStats) ∈ (finalizeStep s).traffic_window ∧
      add_packet now ps s = (some a, { finalizeStep s with last_alert_time := now })) ∧
    ((gapStep s2).traffic_window.getLast? = some ⟨s2.current_second + 1, 0⟩ ∧
      (⟨s2.current_second + 1, 0⟩ : TrafficStats) ∈ (gapStep s2).traffic_window ∧
      gapFill now2 ps2 s2 = (some a2, { gapStep s2 with last_alert_time := now2 })) := by
  refine ⟨⟨?_, ?_, add_packet_finalize_some now ps s a hne hc hch⟩,
    ⟨?_, ?_, gapFill_step_some now2 ps2 s2 a2 hlt2 hch2⟩⟩
  · exact dequeAppend_getLast _ _ _ hw
  · exact dequeAppend_mem _ _ _ hw
  · exact dequeAppend_getLast _ _ _ hw2
  · exact dequeAppend_mem _ _ _ hw2

/-- Witness for C1: the spike finalization of `sSpike` and the zero-bucket
gap classification of `sEleven`, both on windows ending in the bucket being
classified. -/
theorem C1_statistics_include_sample_witness :
    ((finalizeStep sSpike).traffic_window.getLast? = some ⟨100, 100⟩ ∧
      (⟨100, 100⟩ : TrafficStats) ∈ (finalizeStep sSpike).traffic_window ∧
      add_packet 1000 105 sSpike =
        (some alertSpike, { finalizeStep sSpike with last_alert_time := 1000 })) ∧
    ((gapStep sEleven).traffic_window.getLast? = some ⟨101, 0⟩ ∧
      (⟨101, 0⟩ : TrafficStats) ∈ (gapStep sEleven).traffic_window ∧
      gapFill 1000 105 sEleven =
        (some alertDrop, { gapStep sEleven with last_alert_time := 1000 })) :=
  C1_statistics_include_sample 1000 105 sSpike alertSpike (by decide) (by decide) (by decide)
    (by norm_num [check_anomaly_for_count, windowCounts, sampleVariance, listMean,
      absZscoreGe, generate_alert, finalizeStep, dequeAppend, dequeKeepLast, sSpike, wTen,
      cfgD, alertSpike, List.sum_cons, List.sum_nil])
    1000 105 sEleven alertDrop (by decide) (by decide)
    (by norm_num [check_anomaly_for_count, windowCounts, sampleVariance, listMean,
      absZscoreGe, generate_alert, gapStep, dequeAppend, dequeKeepLast, sEleven, wEleven,
      wTen, cfgD, alertDrop, List.sum_cons, List.sum_nil])

/-! ## Claim C3 -/

/-- C3 is false as stated: when the zero bucket for second 101 alerts during
gap filling of a packet at second 105, the alert is returned immediately and
the zero buckets for the remaining skipped seconds 102, 103, 104 are NOT
pushed to the window in that call: the window ends with 12 buckets (baseline
plus `(100,10)` plus `(101,0)`), not 15. -/
theorem C3_counterexample :
    (add_packet 1000 105 sBase).1.isSome = true ∧
    (add_packet 1000 105 sBase).2.traffic_window.length = 12 ∧
    (⟨102, 0⟩ : TrafficStats) ∉ (add_packet 1000 105 sBase).2.traffic_window ∧
    (⟨103, 0⟩ : TrafficStats) ∉ (add_packet 1000 105 sBase).2.traffic_window ∧
    (⟨104, 0⟩ : TrafficStats) ∉ (add_packet 1000 105 sBase).2.traffic_window := by
  have hnone : check_anomaly_for_count 1000 sBase.current_count (finalizeStep sBase) = none :=
    check_skip_var0 _ _ _
      (by norm_num [windowCounts, sampleVariance, listMean, finalizeStep, dequeAppend,
        dequeKeepLast, sBase, wTen, cfgD, List.sum_cons, List.sum_nil])
  have halert : check_anomaly_for_count 1000 0 (gapStep (finalizeStep sBase)) =
      some alertDrop := by
    norm_num [check_anomaly_for_count, windowCounts, sampleVariance, listMean, absZscoreGe,
      generate_alert, gapStep, finalizeStep, dequeAppend, dequeKeepLast, sBase, wTen, cfgD,
      alertDrop, List.sum_cons, List.sum_nil]
  have hstep := gapFill_step_some 1000 105 (finalizeStep sBase) alertDrop (by decide) halert
  have heq := add_packet_gap_some 1000 105 sBase alertDrop _ (by decide) (by decide) hnone hstep
  rw [heq]
  exact ⟨rfl, by decide, by decide, by decide, by decide⟩

/-- C3 (amended): during gap filling, the first zero-count bucket whose
classification alerts short-circuits the call — the alert is returned
immediately and the zero buckets for the remaining skipped seconds are NOT
pushed to the window in that same call: the loop stops at the alerting
second (which never reaches `packet_second`), every bucket in the returned
window is for a second at or before it, and the in-progress count is left
untouched.  At most one alert is returned per invocation (the return type of
`add_packet` is a single optional alert). -/
theorem C3_gap_alert_shortcircuits
    (now : ℚ) (ps : ℤ) (s : DetectorState) (a : AnomalyAlert)
    (hlt : s.current_second < ps - 1)
    (hch : check_anomaly_for_count now 0 (gapStep s) = some a)
    (now2 : ℚ) (ps2 : ℤ) (s2 : DetectorState) (a2 : AnomalyAlert) (s2' : DetectorState)
    (hchron : ∀ b ∈ s2.traffic_window, b.timestamp ≤ s2.current_second)
    (hg : gapFill now2 ps2 s2 = (some a2, s2')) :
    gapFill now ps s = (some a, { gapStep s with last_alert_time := now }) ∧
    (∀ b ∈ s2'.traffic_window, b.timestamp ≤ s2'.current_second) ∧
    s2'.current_second ≤ ps2 - 1 ∧
    s2'.current_count = s2.current_count := by
  refine ⟨gapFill_step_some now ps s a hlt hch, ?_, ?_, ?_⟩
  · unfold gapFill at hg
    have := gapFillFuel_chrono now2 ps2 ((ps2 - 1 - s2.current_second).toNat) s2 hchron
    rw [hg] at this
    exact this
  · unfold gapFill at hg
    exact (gapFillFuel_some_state now2 ps2 _ _ _ _ hg).1
  · unfold gapFill at hg
    exact (gapFillFuel_some_state now2 ps2 _ _ _ _ hg).2

/-- Witness for the amended C3: the 11-bucket baseline with a gap to second
105; the zero bucket for 101 alerts, the loop stops there (window ends at
second 101 ≤ 104), and the in-progress count 10 is untouched. -/
theorem C3_gap_alert_shortcircuits_witness :
    gapFill 1000 105 sEleven =
      (some alertDrop, { gapStep sEleven with last_alert_time := 1000 }) ∧
    (∀ b ∈ ({ gapStep sEleven with last_alert_time := 1000 } : DetectorState).traffic_window,
      b.timestamp ≤
        ({ gapStep sEleven with last_alert_time := 1000 } : DetectorState).current_second) ∧
    ({ gapStep sEleven with last_alert_time := 1000 } : DetectorState).current_second ≤
      105 - 1 ∧
    ({ gapStep sEleven with last_alert_time := 1000 } : DetectorState).current_count =
      sEleven.current_count :=
  C3_gap_alert_shortcircuits 1000 105 sEleven alertDrop (by decide)
    (by norm_num [check_anomaly_for_count, windowCounts, sampleVariance, listMean,
      absZscoreGe, generate_alert, gapStep, dequeAppend, dequeKeepLast, sEleven, wEleven,
      wTen, cfgD, alertDrop, List.sum_cons, List.sum_nil])
    1000 105 sEleven alertDrop ({ gapStep sEleven with last_alert_time := 1000 })
    (by decide)
    (gapFill_step_some 1000 105 sEleven alertDrop (by decide)
      (by norm_num [check_anomaly_for_count, windowCounts, sampleVariance, listMean,
        absZscoreGe, generate_alert, gapStep, dequeAppend, dequeKeepLast, sEleven, wEleven,
        wTen, cfgD, alertDrop, List.sum_cons, List.sum_nil]))

/-! ## Claim C10 -/

/-- C10: when finalization itself alerts, `add_packet` returns at once with
`currentSecond` and `currentCount` unchanged — the triggering packet is not
counted into any bucket and no gap fill runs — and the next call that
observes a later second finalizes the very same `(second, count)` bucket
again, so the window then ends with that bucket twice. -/
theorem C10_finalize_alert_double_append
    (now now2 : ℚ) (ps : ℤ) (s : DetectorState) (a : AnomalyAlert)
    (hne : ps ≠ s.current_second) (hc : 0 < s.current_count)
    (hm : 2 ≤ s.config.window_size)
    (hch : check_anomaly_for_count now s.current_count (finalizeStep s) = some a) :
    add_packet now ps s = (some a, { finalizeStep s with last_alert_time := now }) ∧
    (add_packet now ps s).2.current_second = s.current_second ∧
    (add_packet now ps s).2.current_count = s.current_count ∧
    ∃ u, (add_packet now2 (s.current_second + 1) ((add_packet now ps s).2)).2.traffic_window =
        u ++ [⟨s.current_second, s.current_count⟩, ⟨s.current_second, s.current_count⟩] := by
  have heq := add_packet_finalize_some now ps s a hne hc hch
  refine ⟨heq, by rw [heq]; rfl, by rw [heq]; rfl, ?_⟩
  rw [heq]
  have hwnd := add_packet_next_second_window now2
    ({ finalizeStep s with last_alert_time := now } : DetectorState) hc
  have hwnd2 : (add_packet now2 (s.current_second + 1)
      ({ finalizeStep s with last_alert_time := now } : DetectorState)).2.traffic_window =
      (finalizeStep ({ finalizeStep s with last_alert_time := now } :
        DetectorState)).traffic_window := hwnd
  rw [hwnd2]
  have h1 : (finalizeStep s).traffic_window =
      s.traffic_window.drop (s.traffic_window.length + 1 - s.config.window_size) ++
        [⟨s.current_second, s.current_count⟩] :=
    dequeAppend_eq_append _ _ _ (by omega)
  show ∃ u, dequeAppend s.config.window_size (finalizeStep s).traffic_window
      ⟨s.current_second, s.current_count⟩ = u ++ [_, _]
  rw [h1]
  exact dequeAppend_double _ _ _ hm

/-- Witness for C10: the spike finalization of `sSpike`; the second call at
second 101 re-appends the bucket `(100, 100)`, leaving the window ending in
it twice. -/
theorem C10_finalize_alert_double_append_witness :
    add_packet 1000 105 sSpike =
      (some alertSpike, { finalizeStep sSpike with last_alert_time := 1000 }) ∧
    (add_packet 1000 105 sSpike).2.current_second = sSpike.current_second ∧
    (add_packet 1000 105 sSpike).2.current_count = sSpike.current_count ∧
    ∃ u, (add_packet 2000 (sSpike.current_second + 1)
        ((add_packet 1000 105 sSpike).2)).2.traffic_window =
      u ++ [⟨sSpike.current_second, sSpike.current_count⟩,
        ⟨sSpike.current_second, sSpike.current_count⟩] :=
  C10_finalize_alert_double_append 1000 2000 105 sSpike alertSpike (by decide) (by decide)
    (by decide)
    (by norm_num [check_anomaly_for_count, windowCounts, sampleVariance, listMean,
      absZscoreGe, generate_alert, finalizeStep, dequeAppend, dequeKeepLast, sSpike, wTen,
      cfgD, alertSpike, List.sum_cons, List.sum_nil])

/-! ## Claim C7 -/

theorem update_config_bounded (c : AnomalyConfig) (s : DetectorState)
    (h : WindowBounded s) : WindowBounded (update_config c s) := by
  unfold update_config
  split_ifs with hch
  · exact dequeKeepLast_length_le _ _
  · have heq : c.window_size = s.config.window_size := not_ne_iff.mp hch
    show s.traffic_window.length ≤ c.window_size
    rw [heq]
    exact h

theorem add_packet_bounded (now : ℚ) (ps : ℤ) (s : DetectorState)
    (h : WindowBounded s) : WindowBounded (add_packet now ps s).2 := by
  unfold add_packet
  split_ifs with hps hc
  · exact h
  · cases hck : check_anomaly_for_count now s.current_count (finalizeStep s) with
    | some b =>
      simp only [hck]
      exact dequeAppend_length_le _ _ _
    | none =>
      simp only [hck]
      cases hg : gapFill now ps (finalizeStep s) with
      | mk og s2 =>
        have hb : WindowBounded s2 := by
          have hfin : WindowBounded (finalizeStep s) := dequeAppend_length_le _ _ _
          have hrun := gapFillFuel_bounded now ps
            ((ps - 1 - (finalizeStep s).current_second).toNat) (finalizeStep s) hfin
          unfold gapFill at hg
          rw [hg] at hrun
          exact hrun
        cases og with
        | some b => simp only [hg]; exact hb
        | none => simp only [hg]; exact hb
  · cases hg : gapFill now ps s with
    | mk og s2 =>
      have hb : WindowBounded s2 := by
        have hrun := gapFillFuel_bounded now ps
          ((ps - 1 - s.current_second).toNat) s h
        unfold gapFill at hg
        rw [hg] at hrun
        exact hrun
      cases og with
      | some b => simp only [hg]; exact hb
      | none => simp only [hg]; exact hb

theorem applyOp_bounded (s : DetectorState) (op : DetectorOp)
    (h : WindowBounded s) : WindowBounded (applyOp s op) := by
  cases op with
  | addPacket now ps => exact add_packet_bounded now ps s h
  | updateConfig c => exact update_config_bounded c s h
  | resetOp t => simp [applyOp, reset, WindowBounded]

theorem runOps_bounded (ops : List DetectorOp) :
    ∀ s, WindowBounded s → WindowBounded (runOps s ops) := by
  induction ops with
  | nil => intro s h; exact h
  | cons op rest ih => intro s h; exact ih _ (applyOp_bounded s op h)

/-- C7: over every sequence of `add_packet`, `update_config` and `reset`
operations from a fresh detector, the rolling window's length never exceeds
the currently configured `window_size` (eviction is FIFO inside
`dequeAppend`); and an `update_config` that shrinks `window_size` retains
exactly the most recent buckets of the old window, in order (the last
`window_size` entries). -/
theorem C7_window_bound_and_resize
    (cfg : AnomalyConfig) (t : ℤ) (ops : List DetectorOp)
    (cfg2 : AnomalyConfig) (s2 : DetectorState)
    (hshrink : cfg2.window_size < s2.config.window_size) :
    WindowBounded (runOps (init cfg t) ops) ∧
    (update_config cfg2 s2).traffic_window =
      s2.traffic_window.drop (s2.traffic_window.length - cfg2.window_size) := by
  constructor
  · have h0 : WindowBounded (init cfg t) := by simp [init, WindowBounded]
    exact runOps_bounded ops _ h0
  · unfold update_config
    rw [if_pos (by omega : cfg2.window_size ≠ s2.config.window_size)]
    rfl

/-- Witness for C7: a short run mixing packets, a resize to 12 and a reset
stays bounded; shrinking `sBase`'s window to capacity 2 keeps its last two
buckets. -/
theorem C7_window_bound_and_resize_witness :
    WindowBounded (runOps (init cfgD 0)
      [.addPacket 0 100, .addPacket 0 105, .updateConfig ⟨12, 3, 10, 30⟩, .resetOp 7]) ∧
    (update_config ⟨2, 3, 10, 30⟩ sBase).traffic_window =
      sBase.traffic_window.drop (sBase.traffic_window.length - 2) :=
  C7_window_bound_and_resize cfgD 0
    [.addPacket 0 100, .addPacket 0 105, .updateConfig ⟨12, 3, 10, 30⟩, .resetOp 7]
    ⟨2, 3, 10, 30⟩ sBase (by decide)

/-! ## Claim C6 -/

/-- C6: from a fresh detector whose current second is `T`, one packet at
second `T` followed by one packet at second `T + 5` yields no alert and
leaves the window holding exactly the five buckets
`[(T,1), (T+1,0), (T+2,0), (T+3,0), (T+4,0)]`, in order. -/
theorem C6_gap_filling_window (T : ℤ) :
    (add_packet 0 T (init cfgD T)).1 = none ∧
    (add_packet 0 (T + 5) ((add_packet 0 T (init cfgD T)).2)).1 = none ∧
    (add_packet 0 (T + 5) ((add_packet 0 T (init cfgD T)).2)).2.traffic_window =
      [⟨T, 1⟩, ⟨T + 1, 0⟩, ⟨T + 2, 0⟩, ⟨T + 3, 0⟩, ⟨T + 4, 0⟩] := by
  have e1 : add_packet 0 T (init cfgD T) = (none, ⟨cfgD, [], T, 1, 0⟩) := by
    unfold add_packet
    rw [if_pos (show T = (init cfgD T).current_second from rfl)]
    norm_num [init]
  have eg0 : gapStep (⟨cfgD, [⟨T, 1⟩], T, 1, 0⟩ : DetectorState) =
      ⟨cfgD, [⟨T, 1⟩, ⟨T + 1, 0⟩], T + 1, 1, 0⟩ := by
    simp [gapStep, dequeAppend, dequeKeepLast, cfgD]
  have eg1 : gapStep (⟨cfgD, [⟨T, 1⟩, ⟨T + 1, 0⟩], T + 1, 1, 0⟩ : DetectorState) =
      ⟨cfgD, [⟨T, 1⟩, ⟨T + 1, 0⟩, ⟨T + 2, 0⟩], T + 2, 1, 0⟩ := by
    simp [gapStep, dequeAppend, dequeKeepLast, cfgD]
    omega
  have eg2 : gapStep (⟨cfgD, [⟨T, 1⟩, ⟨T + 1, 0⟩, ⟨T + 2, 0⟩], T + 2, 1, 0⟩ : DetectorState) =
      ⟨cfgD, [⟨T, 1⟩, ⟨T + 1, 0⟩, ⟨T + 2, 0⟩, ⟨T + 3, 0⟩], T + 3, 1, 0⟩ := by
    simp [gapStep, dequeAppend, dequeKeepLast, cfgD]
    omega
  have eg3 : gapStep (⟨cfgD, [⟨T, 1⟩, ⟨T + 1, 0⟩, ⟨T + 2, 0⟩, ⟨T + 3, 0⟩], T + 3, 1, 0⟩ :
      DetectorState) =
      ⟨cfgD, [⟨T, 1⟩, ⟨T + 1, 0⟩, ⟨T + 2, 0⟩, ⟨T + 3, 0⟩, ⟨T + 4, 0⟩], T + 4, 1, 0⟩ := by
    simp [gapStep, dequeAppend, dequeKeepLast, cfgD]
    omega
  have unfold1 : ∀ (n : ℕ) (st : DetectorState), st.current_second < T + 5 - 1 →
      check_anomaly_for_count 0 0 (gapStep st) = none →
      gapFillFuel 0 (T + 5) (n + 1) st = gapFillFuel 0 (T + 5) n (gapStep st) := by
    intro n st hlt hchk
    simp only [gapFillFuel, if_pos hlt, hchk]
  have run : gapFillFuel 0 (T + 5) 4 (⟨cfgD, [⟨T, 1⟩], T, 1, 0⟩ : DetectorState) =
      (none, ⟨cfgD, [⟨T, 1⟩, ⟨T + 1, 0⟩, ⟨T + 2, 0⟩, ⟨T + 3, 0⟩, ⟨T + 4, 0⟩], T + 4, 1, 0⟩) := by
    rw [show (4 : ℕ) = 3 + 1 from rfl]
    rw [unfold1 3 _ (by show T < T + 5 - 1; omega)
      (by rw [eg0]; exact check_skip_min_samples _ _ _ (by norm_num [cfgD]))]
    rw [eg0]
    rw [show (3 : ℕ) = 2 + 1 from rfl]
    rw [unfold1 2 _ (by show T + 1 < T + 5 - 1; omega)
      (by rw [eg1]; exact check_skip_min_samples _ _ _ (by norm_num [cfgD]))]
    rw [eg1]
    rw [show (2 : ℕ) = 1 + 1 from rfl]
    rw [unfold1 1 _ (by show T + 2 < T + 5 - 1; omega)
      (by rw [eg2]; exact check_skip_min_samples _ _ _ (by norm_num [cfgD]))]
    rw [eg2]
    rw [show (1 : ℕ) = 0 + 1 from rfl]
    rw [unfold1 0 _ (by show T + 3 < T + 5 - 1; omega)
      (by rw [eg3]; exact check_skip_min_samples _ _ _ (by norm_num [cfgD]))]
    rw [eg3]
    rfl
  have efin : finalizeStep (⟨cfgD, [], T, 1, 0⟩ : DetectorState) =
      ⟨cfgD, [⟨T, 1⟩], T, 1, 0⟩ := by
    simp [finalizeStep, dequeAppend, dequeKeepLast, cfgD]
  have e2 : add_packet 0 (T + 5) (⟨cfgD, [], T, 1, 0⟩ : DetectorState) =
      (none, ⟨cfgD, [⟨T, 1⟩, ⟨T + 1, 0⟩, ⟨T + 2, 0⟩, ⟨T + 3, 0⟩, ⟨T + 4, 0⟩], T + 5, 1, 0⟩) := by
    unfold add_packet
    rw [if_neg (show ¬(T + 5 = (⟨cfgD, [], T, 1, 0⟩ : DetectorState).current_second) from by
      show ¬(T + 5 = T); omega)]
    have hcpos : (0 : ℤ) < (⟨cfgD, [], T, 1, 0⟩ : DetectorState).current_count := by norm_num
    simp only [if_pos hcpos]
    rw [efin, check_skip_min_samples 0 _ _ (by norm_num [cfgD])]
    have egap : gapFill 0 (T + 5) (⟨cfgD, [⟨T, 1⟩], T, 1, 0⟩ : DetectorState) =
        (none, ⟨cfgD, [⟨T, 1⟩, ⟨T + 1, 0⟩, ⟨T + 2, 0⟩, ⟨T + 3, 0⟩, ⟨T + 4, 0⟩], T + 4, 1, 0⟩) := by
      unfold gapFill
      rw [show (T + 5 - 1 - (⟨cfgD, [⟨T, 1⟩], T, 1, 0⟩ : DetectorState).current_second).toNat = 4
        from by show (T + 5 - 1 - T).toNat = 4; omega]
      exact run
    rw [egap]
  rw [e1]
  refine ⟨rfl, ?_, ?_⟩
  · show (add_packet 0 (T + 5) (⟨cfgD, [], T, 1, 0⟩ : DetectorState)).1 = none
    rw [e2]
  · show (add_packet 0 (T + 5) (⟨cfgD, [], T, 1, 0⟩ : DetectorState)).2.traffic_window = _
    rw [e2]

/-! ## Claim C5 -/

/-- When the four skip gates pass, `_check_anomaly_for_count` alerts exactly
when the threshold comparison holds. -/
theorem check_isSome_iff (now : ℚ) (c : ℤ) (s : DetectorState)
    (g1 : ¬ s.traffic_window.length < s.config.min_samples)
    (g2 : ¬ now - s.last_alert_time < s.config.alert_cooldown)
    (g3 : ¬ s.traffic_window.length < 2)
    (g4 : ¬ sampleVariance (windowCounts s) = 0) :
    ((check_anomaly_for_count now c s).isSome = true ↔
      absZscoreGe c (listMean (windowCounts s)) (sampleVariance (windowCounts s))
        s.config.threshold = true) := by
  cases hb : absZscoreGe c (listMean (windowCounts s)) (sampleVariance (windowCounts s))
      s.config.threshold with
  | false => rw [check_skip_threshold now c s hb]; simp
  | true => rw [check_fires now c s g1 g2 g3 g4 hb]; simp

/-- C5: whenever classification runs (enough samples, cooldown elapsed, at
least two samples, nonzero variance) with a positive threshold, an alert is
produced exactly when `|z| ≥ threshold` for the real z-score
`(c − mean)/√variance`, boundary inclusive; and a produced alert carries
level `info` iff `|z| < 4`, `warning` iff `4 ≤ |z| < 5`, `critical` iff
`|z| ≥ 5`, with spike wording iff `z > 0` and drop wording iff `z < 0`. -/
theorem C5_threshold_boundary_level_message
    (nowA : ℚ) (cA : ℤ) (sA : DetectorState)
    (hA1 : ¬ sA.traffic_window.length < sA.config.min_samples)
    (hA2 : ¬ nowA - sA.last_alert_time < sA.config.alert_cooldown)
    (hA3 : ¬ sA.traffic_window.length < 2)
    (hA4 : ¬ sampleVariance (windowCounts sA) = 0)
    (hA5 : 0 < sA.config.threshold)
    (nowB : ℚ) (cB : ℤ) (sB : DetectorState) (a : AnomalyAlert)
    (hB5 : 0 < sB.config.threshold)
    (hB : check_anomaly_for_count nowB cB sB = some a) :
    ((check_anomaly_for_count nowA cA sA).isSome = true ↔
      (sA.config.threshold : ℝ) ≤ |zscoreReal cA sA|) ∧
    (a.level = .critical ↔ 5 ≤ |zscoreReal cB sB|) ∧
    (a.level = .warning ↔ 4 ≤ |zscoreReal cB sB| ∧ |zscoreReal cB sB| < 5) ∧
    (a.level = .info ↔ |zscoreReal cB sB| < 4) ∧
    (a.message = .trafficSpike cB ↔ 0 < zscoreReal cB sB) ∧
    (a.message = .trafficDrop cB ↔ zscoreReal cB sB < 0) := by
  have hvA : 0 < sampleVariance (windowCounts sA) := by
    refine lt_of_le_of_ne (sampleVariance_nonneg _ ?_) (Ne.symm hA4)
    rw [windowCounts_length]
    omega
  have partA : (check_anomaly_for_count nowA cA sA).isSome = true ↔
      (sA.config.threshold : ℝ) ≤ |zscoreReal cA sA| := by
    rw [check_isSome_iff nowA cA sA hA1 hA2 hA3 hA4]
    exact absZscoreGe_iff_real cA (listMean (windowCounts sA))
      (sampleVariance (windowCounts sA)) sA.config.threshold hvA hA5
  obtain ⟨g1, g2, g3, g4, g5, ha⟩ := check_some_inv nowB cB sB a hB
  subst ha
  have hvB : 0 < sampleVariance (windowCounts sB) := by
    refine lt_of_le_of_ne (sampleVariance_nonneg _ ?_) (Ne.symm g4)
    rw [windowCounts_length]
    omega
  have hb5 : absZscoreGe cB (listMean (windowCounts sB)) (sampleVariance (windowCounts sB))
      5 = true ↔ (5 : ℝ) ≤ |zscoreReal cB sB| := by
    have h := absZscoreGe_iff_real cB (listMean (windowCounts sB))
      (sampleVariance (windowCounts sB)) 5 hvB (by norm_num)
    rw [show (((5 : ℚ)) : ℝ) = (5 : ℝ) by norm_num] at h
    exact h
  have hb4 : absZscoreGe cB (listMean (windowCounts sB)) (sampleVariance (windowCounts sB))
      4 = true ↔ (4 : ℝ) ≤ |zscoreReal cB sB| := by
    have h := absZscoreGe_iff_real cB (listMean (windowCounts sB))
      (sampleVariance (windowCounts sB)) 4 hvB (by norm_num)
    rw [show (((4 : ℚ)) : ℝ) = (4 : ℝ) by norm_num] at h
    exact h
  have hbth : absZscoreGe cB (listMean (windowCounts sB)) (sampleVariance (windowCounts sB))
      sB.config.threshold = true ↔ (sB.config.threshold : ℝ) ≤ |zscoreReal cB sB| :=
    absZscoreGe_iff_real cB (listMean (windowCounts sB))
      (sampleVariance (windowCounts sB)) sB.config.threshold hvB hB5
  have hthz : (sB.config.threshold : ℝ) ≤ |zscoreReal cB sB| := hbth.mp g5
  have hthR : (0 : ℝ) < (sB.config.threshold : ℝ) := by exact_mod_cast hB5
  have habs : (0 : ℝ) < |zscoreReal cB sB| := lt_of_lt_of_le hthR hthz
  have hsv : (0 : ℝ) < Real.sqrt ((sampleVariance (windowCounts sB) : ℚ) : ℝ) :=
    Real.sqrt_pos.mpr (by exact_mod_cast hvB)
  have hsign_pos : 0 < zscoreReal cB sB ↔ listMean (windowCounts sB) < (cB : ℚ) := by
    unfold zscoreReal
    rw [div_pos_iff_of_pos_right hsv]
    constructor
    · intro h
      have h2 : (0 : ℚ) < (cB : ℚ) - listMean (windowCounts sB) := by exact_mod_cast h
      linarith
    · intro h
      have h2 : (0 : ℚ) < (cB : ℚ) - listMean (windowCounts sB) := by linarith
      exact_mod_cast h2
  have hsign_neg : zscoreReal cB sB < 0 ↔ (cB : ℚ) < listMean (windowCounts sB) := by
    unfold zscoreReal
    rw [div_neg_iff]
    constructor
    · rintro (⟨hp, hn⟩ | ⟨hn, hp⟩)
      · exact absurd hsv (not_lt.mpr hn.le)
      · have h2 : ((cB : ℚ) - listMean (windowCounts sB) : ℚ) < 0 := by exact_mod_cast hn
        linarith
    · intro h
      refine Or.inr ⟨?_, hsv⟩
      have h2 : ((cB : ℚ) - listMean (windowCounts sB) : ℚ) < 0 := by linarith
      exact_mod_cast h2
  have hlev : (generate_alert cB (listMean (windowCounts sB))
      (sampleVariance (windowCounts sB)) nowB).level =
      (if absZscoreGe cB (listMean (windowCounts sB))
        (sampleVariance (windowCounts sB)) 5 then AlertLevel.critical
      else if absZscoreGe cB (listMean (windowCounts sB))
        (sampleVariance (windowCounts sB)) 4 then AlertLevel.warning
      else AlertLevel.info) := rfl
  have hmsg : (generate_alert cB (listMean (windowCounts sB))
      (sampleVariance (windowCounts sB)) nowB).message =
      (if listMean (windowCounts sB) < (cB : ℚ)
      then AlertMessage.trafficSpike cB else AlertMessage.trafficDrop cB) := rfl
  have hmessage : ((generate_alert cB (listMean (windowCounts sB))
        (sampleVariance (windowCounts sB)) nowB).message = .trafficSpike cB ↔
        0 < zscoreReal cB sB) ∧
      ((generate_alert cB (listMean (windowCounts sB))
        (sampleVariance (windowCounts sB)) nowB).message = .trafficDrop cB ↔
        zscoreReal cB sB < 0) := by
    by_cases hmc : listMean (windowCounts sB) < (cB : ℚ)
    · rw [if_pos hmc] at hmsg
      have hzpos : 0 < zscoreReal cB sB := hsign_pos.mpr hmc
      constructor
      · rw [hmsg]
        exact ⟨fun _ => hzpos, fun _ => rfl⟩
      · rw [hmsg]
        constructor
        · intro hcontra
          exact absurd hcontra (by simp)
        · intro hneg
          exact absurd hneg (not_lt.mpr hzpos.le)
    · rw [if_neg hmc] at hmsg
      have hzle : ¬ (0 < zscoreReal cB sB) := fun hp => hmc (hsign_pos.mp hp)
      have hzne : zscoreReal cB sB ≠ 0 := by
        intro h0
        rw [h0] at habs
        simp at habs
      have hzneg : zscoreReal cB sB < 0 :=
        lt_of_le_of_ne (not_lt.mp hzle) hzne
      constructor
      · rw [hmsg]
        constructor
        · intro hcontra
          exact absurd hcontra (by simp)
        · intro hp
          exact absurd hp hzle
      · rw [hmsg]
        exact ⟨fun _ => hzneg, fun _ => rfl⟩
  refine ⟨partA, ?_, ?_, ?_, hmessage.1, hmessage.2⟩
  all_goals
    cases h5b : absZscoreGe cB (listMean (windowCounts sB))
        (sampleVariance (windowCounts sB)) 5 with
    | true =>
      have h5z : (5 : ℝ) ≤ |zscoreReal cB sB| := hb5.mp h5b
      rw [h5b, if_pos rfl] at hlev
      first
      | exact ⟨fun _ => h5z, fun _ => by rw [hlev]⟩
      | · rw [hlev]
          constructor
          · intro hcontra; exact absurd hcontra (by simp)
          · rintro ⟨h4z, hlt5⟩; exact absurd h5z (not_le.mpr hlt5)
      | · rw [hlev]
          constructor
          · intro hcontra; exact absurd hcontra (by simp)
          · intro hlt4; exact absurd h5z (not_le.mpr (by linarith))
    | false =>
      have h5z : ¬ ((5 : ℝ) ≤ |zscoreReal cB sB|) := fun hx => by
        rw [← hb5] at hx
        rw [hx] at h5b
        exact absurd h5b (by simp)
      rw [h5b] at hlev
      simp only [Bool.false_eq_true, if_false] at hlev
      cases h4b : absZscoreGe cB (listMean (windowCounts sB))
          (sampleVariance (windowCounts sB)) 4 with
      | true =>
        have h4z : (4 : ℝ) ≤ |zscoreReal cB sB| := hb4.mp h4b
        rw [h4b, if_pos rfl] at hlev
        first
        | · rw [hlev]
            constructor
            · intro hcontra; exact absurd hcontra (by simp)
            · intro hge5; exact absurd hge5 h5z
        | exact ⟨fun _ => ⟨h4z, not_le.mp h5z⟩, fun _ => by rw [hlev]⟩
        | · rw [hlev]
            constructor
            · intro hcontra; exact absurd hcontra (by simp)
            · intro hlt4; exact absurd h4z (not_le.mpr hlt4)
      | false =>
        have h4z : ¬ ((4 : ℝ) ≤ |zscoreReal cB sB|) := fun hx => by
          rw [← hb4] at hx
          rw [hx] at h4b
          exact absurd h4b (by simp)
        rw [h4b] at hlev
        simp only [Bool.false_eq_true, if_false] at hlev
        first
        | · rw [hlev]
            constructor
            · intro hcontra; exact absurd hcontra (by simp)
            · intro hge5; exact absurd hge5 h5z
        | · rw [hlev]
            constructor
            · intro hcontra; exact absurd hcontra (by simp)
            · rintro ⟨h4ge, hlt5⟩; exact absurd h4ge h4z
        | exact ⟨fun _ => not_le.mp h4z, fun _ => by rw [hlev]⟩

/-- Witness for C5: the 12-bucket window of `sTwelve` classifying count 0
(the traffic drop whose |z| ≈ 3.18 sits between the threshold 3 and the
warning bound 4, so the alert is `info` with drop wording). -/
theorem C5_threshold_boundary_level_message_witness :
    ((check_anomaly_for_count 1000 0 sTwelve).isSome = true ↔
      (sTwelve.config.threshold : ℝ) ≤ |zscoreReal 0 sTwelve|) ∧
    (alertDrop.level = .critical ↔ 5 ≤ |zscoreReal 0 sTwelve|) ∧
    (alertDrop.level = .warning ↔
      4 ≤ |zscoreReal 0 sTwelve| ∧ |zscoreReal 0 sTwelve| < 5) ∧
    (alertDrop.level = .info ↔ |zscoreReal 0 sTwelve| < 4) ∧
    (alertDrop.message = .trafficSpike 0 ↔ 0 < zscoreReal 0 sTwelve) ∧
    (alertDrop.message = .trafficDrop 0 ↔ zscoreReal 0 sTwelve < 0) :=
  C5_threshold_boundary_level_message 1000 0 sTwelve
    (by decide)
    (by norm_num [sTwelve, cfgD])
    (by decide)
    (by norm_num [windowCounts, sampleVariance, listMean, sTwelve, wTwelve, wEleven, wTen,
      cfgD, List.sum_cons, List.sum_nil])
    (by norm_num [sTwelve, cfgD])
    1000 0 sTwelve alertDrop
    (by norm_num [sTwelve, cfgD])
    (by norm_num [check_anomaly_for_count, windowCounts, sampleVariance, listMean,
      absZscoreGe, generate_alert, sTwelve, wTwelve, wEleven, wTen, cfgD, alertDrop,
      List.sum_cons, List.sum_nil])

end PacketMind
